import Mathlib

/-!
Shallow embedding of the merge-eligibility decision engine found in
the repository file .github/scripts/merge-eligibility.mjs, together with
models of its data-fetch layer, and theorems settling the frozen claims
about that program.

Timestamps are modelled as milliseconds-since-epoch natural numbers
(the JavaScript code converts timestamp strings through Date.getTime).
Nullable JavaScript values are modelled with Option.
-/

/-- A label attached to a pull request; the code only reads its name. -/
structure Label where
  name : String
deriving DecidableEq

/-- The head reference of a pull request; the code only reads head.sha. -/
structure HeadRef where
  sha : String
deriving DecidableEq

/-- Pull-request metadata as consumed by the evaluator: state, head sha,
labels (possibly absent, the code guards with a fallback to the empty
list), the tri-state mergeable flag and the mergeable_state string. -/
structure PullRequest where
  state : String
  head : HeadRef
  labels : Option (List Label)
  mergeable : Option Bool
  mergeable_state : String
deriving DecidableEq

/-- One reported check run: name, status, conclusion (null until
completed) and the two nullable timestamps used for deduplication. -/
structure CheckRun where
  name : String
  status : String
  conclusion : Option String
  started_at : Option Nat
  completed_at : Option Nat
deriving DecidableEq

/-- The argument record of evaluateMergeEligibilitySnapshot: the pull
request (possibly absent), the PR number, the expected head sha (the
empty string models an absent value, which is falsy in the source), the
workflow-safety policy flag, the precomputed changed-workflow-files
flag, and the ordered list of check runs. -/
structure EvaluationInput where
  pr : Option PullRequest
  prNumber : Nat
  expectedHeadSha : String
  requireWorkflowSafety : Bool := false
  workflowFilesChanged : Bool := false
  checkRuns : List CheckRun := []
deriving DecidableEq

/-- The decision record returned by the evaluator. -/
structure Decision where
  eligible : Bool
  reason : String
  details : String
  requires_workflow_safety : Bool
deriving DecidableEq

/-- Source function shortSha: the first seven characters of a sha, or
the word unknown when the sha is absent (empty, hence falsy). -/
def shortSha (sha : String) : String :=
  if sha = "" then "unknown" else sha.take 7

/-- Source function isSuccessfulConclusion: a conclusion counts as
successful when it is success or skipped. -/
def isSuccessfulConclusion (conclusion : Option String) : Bool :=
  conclusion == some "success" || conclusion == some "skipped"

/-- Rendering of a nullable conclusion inside a template string: the
source interpolates the raw value, which prints null when absent. -/
def conclusionText (conclusion : Option String) : String :=
  match conclusion with
  | none => "null"
  | some c => c

/-- JavaScript String.prototype.startsWith, modelled on the character
lists underlying Lean strings. -/
def strStartsWith (s p : String) : Bool :=
  p.data.isPrefixOf s.data

/-- The effective timestamp of a run used by latestRunsByName:
started_at, else completed_at, else epoch zero. -/
def effectiveTimeMs (run : CheckRun) : Nat :=
  run.started_at.getD (run.completed_at.getD 0)

/-- Insertion-order-preserving update of an association list, modelling
JavaScript Map.set: an existing key keeps its position and gets the new
value, a new key is appended at the end. -/
def setEntry (m : List (String × CheckRun)) (key : String) (run : CheckRun) :
    List (String × CheckRun) :=
  match m with
  | [] => [(key, run)]
  | (k, v) :: rest =>
    if k = key then (key, run) :: rest else (k, v) :: setEntry rest key run

/-- Lookup in the association list, modelling JavaScript Map.get. -/
def getEntry (m : List (String × CheckRun)) (key : String) : Option CheckRun :=
  (m.find? (fun e => e.1 = key)).map (fun e => e.2)

/-- The values of the association list in insertion order, modelling
JavaScript Map.values. -/
def mapValues (m : List (String × CheckRun)) : List CheckRun :=
  m.map (fun e => e.2)

/-- Source function latestRunsByName: fold over the check runs keeping,
for each name, the run with the latest effective timestamp; on a tie
the currently visited run replaces the stored one because the source
comparison is greater-or-equal. -/
def latestRunsByName (checkRuns : List CheckRun) : List (String × CheckRun) :=
  checkRuns.foldl (fun byName run =>
    match getEntry byName run.name with
    | none => setEntry byName run.name run
    | some existing =>
      if effectiveTimeMs existing ≤ effectiveTimeMs run then
        setEntry byName run.name run
      else byName) []

/-- Source function decision: builds the Decision record; eligible is
computed from the reason, never passed in. -/
def decision (reason : String) (details : String)
    (requiresWorkflowSafety : Bool) : Decision :=
  { eligible := reason == "safe_to_merge"
    reason := reason
    details := details
    requires_workflow_safety := requiresWorkflowSafety }

/-- Source function runStatusSummary: missing for an absent run,
otherwise status slash conclusion with none for a null conclusion. -/
def runStatusSummary (run : Option CheckRun) : String :=
  match run with
  | none => "missing"
  | some r => r.status ++ "/" ++ r.conclusion.getD "none"

/-- The label names of a pull request, with the source fallback to the
empty list when the labels field is absent. -/
def labelNamesOf (pr : PullRequest) : List String :=
  (pr.labels.getD []).map Label.name

/-- The computed workflow-safety flag: requireWorkflowSafety AND
workflowFilesChanged. -/
def requiresWorkflowSafetyFlag (input : EvaluationInput) : Bool :=
  input.requireWorkflowSafety && input.workflowFilesChanged

/-- The coverage-gate runs among the deduplicated check runs: all
values of the by-name map whose name starts with the coverage prefix. -/
def coverageRunsOf (input : EvaluationInput) : List CheckRun :=
  (mapValues (latestRunsByName input.checkRuns)).filter
    (fun run => strStartsWith run.name "Coverage Gate (")

/-- The ordered list of required runs once the Quality run, the
coverage runs and the review run have been resolved. -/
def requiredRunsOf (input : EvaluationInput) (qualityRun reviewRun : CheckRun) :
    List CheckRun :=
  qualityRun :: (coverageRunsOf input ++ [reviewRun])

/-- The names of required runs that are not yet completed, in required
order. -/
def pendingRequiredChecksOf (input : EvaluationInput) (qualityRun reviewRun : CheckRun) :
    List String :=
  ((requiredRunsOf input qualityRun reviewRun).filter
    (fun run => run.status ≠ "completed")).map CheckRun.name

/-- The rendered name-and-conclusion entries of completed required runs
whose conclusion is not successful, in required order. -/
def failedRequiredChecksOf (input : EvaluationInput) (qualityRun reviewRun : CheckRun) :
    List String :=
  ((requiredRunsOf input qualityRun reviewRun).filter
    (fun run => run.status = "completed" ∧ ¬ isSuccessfulConclusion run.conclusion)).map
    (fun run => run.name ++ " (" ++ conclusionText run.conclusion ++ ")")

/-- The safe-to-merge decision built at the end of the evaluator. -/
def safeToMergeDecision (input : EvaluationInput) (pr : PullRequest)
    (qualityRun reviewRun : CheckRun) : Decision :=
  decision "safe_to_merge"
    ("All required checks passed on " ++ shortSha pr.head.sha ++
      " (Quality=" ++ runStatusSummary (some qualityRun) ++
      ", Coverage=" ++ toString (coverageRunsOf input).length ++
      " checks, review=" ++ runStatusSummary (some reviewRun) ++ ").")
    (requiresWorkflowSafetyFlag input)

/-- The workflow-safety block at the end of the source evaluator: when
the computed flag is set, the named Workflow Safety run must exist, be
completed and have a successful conclusion; otherwise, and when the
flag is not set, the safe-to-merge decision is returned. -/
def evaluateWorkflowSafetyGate (input : EvaluationInput) (pr : PullRequest)
    (qualityRun reviewRun : CheckRun) : Decision :=
  if requiresWorkflowSafetyFlag input then
    match getEntry (latestRunsByName input.checkRuns) "Workflow Safety" with
    | none =>
      decision "workflow_safety_missing"
        "Workflow Safety check is required for workflow-file changes but is missing."
        (requiresWorkflowSafetyFlag input)
    | some wsRun =>
      if wsRun.status ≠ "completed" then
        decision "pending_checks" "Workflow Safety check is still running."
          (requiresWorkflowSafetyFlag input)
      else if ¬ isSuccessfulConclusion wsRun.conclusion then
        decision "workflow_safety_failed"
          ("Workflow Safety check failed with conclusion " ++
            conclusionText wsRun.conclusion ++ ".")
          (requiresWorkflowSafetyFlag input)
      else safeToMergeDecision input pr qualityRun reviewRun
  else safeToMergeDecision input pr qualityRun reviewRun

/-- The required-check section of the source evaluator: resolve the
Quality, review and coverage runs from the deduplicated map, report
pending runs, give review failures their own reason, report other
failures as pending, then enter the workflow-safety block. -/
def evaluateRequiredChecks (input : EvaluationInput) (pr : PullRequest) : Decision :=
  match getEntry (latestRunsByName input.checkRuns) "Quality" with
  | none =>
    decision "pending_checks" "Quality check has not started yet."
      (requiresWorkflowSafetyFlag input)
  | some qualityRun =>
    match getEntry (latestRunsByName input.checkRuns) "review" with
    | none =>
      decision "pending_checks" "review check has not started yet."
        (requiresWorkflowSafetyFlag input)
    | some reviewRun =>
      if (coverageRunsOf input).length = 0 then
        decision "pending_checks" "Coverage Gate checks have not started yet."
          (requiresWorkflowSafetyFlag input)
      else if (pendingRequiredChecksOf input qualityRun reviewRun).length > 0 then
        decision "pending_checks"
          ("Required checks still running: " ++
            String.intercalate ", " (pendingRequiredChecksOf input qualityRun reviewRun) ++
            ".")
          (requiresWorkflowSafetyFlag input)
      else if reviewRun.status = "completed" ∧
          ¬ isSuccessfulConclusion reviewRun.conclusion then
        decision "review_failed"
          ("review check failed with conclusion " ++
            conclusionText reviewRun.conclusion ++ ".")
          (requiresWorkflowSafetyFlag input)
      else if (failedRequiredChecksOf input qualityRun reviewRun).length > 0 then
        decision "pending_checks"
          ("Required checks failed: " ++
            String.intercalate ", " (failedRequiredChecksOf input qualityRun reviewRun) ++
            ".")
          (requiresWorkflowSafetyFlag input)
      else evaluateWorkflowSafetyGate input pr qualityRun reviewRun

/-- Source function evaluateMergeEligibilitySnapshot: the pure
eligibility evaluator, translated branch for branch from the source.
The local constants of the source function (labelNames,
requiresWorkflowSafety, byName, coverageRuns, workflowSafetyRun,
requiredRuns, pendingRequiredChecks, failedRequiredChecks) are
represented by the named helper functions above, and the section of
the source body after the six early gates is carried by
evaluateRequiredChecks and evaluateWorkflowSafetyGate. -/
def evaluateMergeEligibilitySnapshot (input : EvaluationInput) : Decision :=
  match input.pr with
  | none =>
    decision "pr_not_open" ("PR #" ++ toString input.prNumber ++ " is not open.") false
  | some pr =>
    if pr.state ≠ "open" then
      decision "pr_not_open" ("PR #" ++ toString input.prNumber ++ " is not open.") false
    else if input.expectedHeadSha ≠ "" ∧ pr.head.sha ≠ input.expectedHeadSha then
      decision "sha_mismatch"
        ("PR head changed from " ++ shortSha input.expectedHeadSha ++ " to " ++
          shortSha pr.head.sha ++ ".")
        false
    else if (labelNamesOf pr).contains "no-auto-merge" then
      decision "no_auto_merge_label" "PR has the no-auto-merge label." false
    else if pr.mergeable = none then
      decision "pending_checks" "GitHub mergeability is still being calculated." false
    else if pr.mergeable = some false ∨ pr.mergeable_state = "dirty" then
      decision "merge_conflict" "PR currently has merge conflicts with main." false
    else if pr.mergeable_state = "behind" then
      decision "behind_main" "PR branch is behind main and needs update." false
    else evaluateRequiredChecks input pr

/-- Whether all six early gates of the evaluator pass, so that control
reaches the required-check section: the pull request exists and each of
the six short-circuit conditions is false. -/
def earlyGatesPass (input : EvaluationInput) : Bool :=
  match input.pr with
  | none => false
  | some pr =>
    decide (¬ pr.state ≠ "open") &&
    decide (¬ (input.expectedHeadSha ≠ "" ∧ pr.head.sha ≠ input.expectedHeadSha)) &&
    !((labelNamesOf pr).contains "no-auto-merge") &&
    decide (¬ pr.mergeable = none) &&
    decide (¬ (pr.mergeable = some false ∨ pr.mergeable_state = "dirty")) &&
    decide (¬ pr.mergeable_state = "behind")

/-- The retry loop of evaluateMergeEligibility over the pull-request
endpoint, with the remote modelled as a map from attempt index to the
response of that attempt. The second component counts the requests
made. Fuel is the number of loop iterations left; on the last
iteration the loop exits with the fetched response whether or not its
mergeable field is resolved, exactly as the source for-loop does. -/
def fetchPullRequestGo (responses : Nat → PullRequest) :
    Nat → Nat → PullRequest × Nat
  | attempt, 0 => (responses attempt, attempt + 1)
  | attempt, 1 => (responses attempt, attempt + 1)
  | attempt, fuel + 2 =>
    if (responses attempt).mergeable ≠ none then (responses attempt, attempt + 1)
    else fetchPullRequestGo responses (attempt + 1) (fuel + 1)

/-- The pull-request fetch of evaluateMergeEligibility: up to four
attempts, stopping early as soon as mergeable is resolved. -/
def fetchPullRequestWithRetry (responses : Nat → PullRequest) : PullRequest × Nat :=
  fetchPullRequestGo responses 0 4

/-- One page of the check-runs listing endpoint: the remote returns at
most a hundred runs per page, with pages numbered from one. -/
def checkRunsPage (allRuns : List CheckRun) (page : Nat) : List CheckRun :=
  (allRuns.drop ((page - 1) * 100)).take 100

/-- The check-run fetch of evaluateMergeEligibility: a single request
with per_page set to a hundred and no page parameter, hence only the
first page of the listing is retrieved. -/
def fetchCheckRuns (allRuns : List CheckRun) : List CheckRun :=
  checkRunsPage allRuns 1

/-! Concrete sample data used by witnesses and counterexamples. -/

/-- An open pull request with resolved, clean mergeability. -/
def samplePrOpen : PullRequest :=
  { state := "open", head := { sha := "abc1234def" }, labels := some []
    mergeable := some true, mergeable_state := "clean" }

/-- A closed pull request. -/
def samplePrClosed : PullRequest :=
  { state := "closed", head := { sha := "abc1234def" }, labels := some []
    mergeable := some true, mergeable_state := "clean" }

/-- A successful completed Quality run. -/
def sampleQuality : CheckRun :=
  { name := "Quality", status := "completed", conclusion := some "success"
    started_at := some 10, completed_at := some 20 }

/-- A successful completed review run. -/
def sampleReview : CheckRun :=
  { name := "review", status := "completed", conclusion := some "success"
    started_at := some 10, completed_at := some 20 }

/-- A successful completed coverage-gate run. -/
def sampleCoverage : CheckRun :=
  { name := "Coverage Gate (unit)", status := "completed", conclusion := some "success"
    started_at := some 10, completed_at := some 20 }

/-- An input that passes every gate: open PR, matching sha, no opt-out
label, clean mergeability, all required checks green. -/
def sampleInputGreen : EvaluationInput :=
  { pr := some samplePrOpen, prNumber := 5, expectedHeadSha := "abc1234def"
    requireWorkflowSafety := false, workflowFilesChanged := false
    checkRuns := [sampleQuality, sampleReview, sampleCoverage] }

/-- The green input with the workflow-safety policy flag set and
workflow files changed. -/
def sampleInputGreenFlagged : EvaluationInput :=
  { sampleInputGreen with requireWorkflowSafety := true, workflowFilesChanged := true }

/-- The green input with a closed pull request. -/
def sampleInputClosed : EvaluationInput :=
  { sampleInputGreen with pr := some samplePrClosed }

/-- An input with no pull request at all while the workflow-safety
policy flag is set and workflow files changed. -/
def sampleInputNoPrFlagged : EvaluationInput :=
  { pr := none, prNumber := 3, expectedHeadSha := ""
    requireWorkflowSafety := true, workflowFilesChanged := true, checkRuns := [] }

/-- An open pull request whose mergeability is still being computed. -/
def samplePrNullMergeable : PullRequest :=
  { state := "open", head := { sha := "abc1234def" }, labels := some []
    mergeable := none, mergeable_state := "unknown" }

/-- The green input with the unresolved-mergeability pull request. -/
def sampleInputNullMergeable : EvaluationInput :=
  { sampleInputGreen with pr := some samplePrNullMergeable }

/-- A review run that completed with a failure conclusion. -/
def sampleReviewFailed : CheckRun :=
  { name := "review", status := "completed", conclusion := some "failure"
    started_at := some 10, completed_at := some 20 }

/-- A coverage-gate run that completed with a failure conclusion. -/
def sampleCoverageFailed : CheckRun :=
  { name := "Coverage Gate (unit)", status := "completed", conclusion := some "failure"
    started_at := some 10, completed_at := some 20 }

/-- The green input, except that the review run completed with
conclusion failure and the coverage gate also failed. -/
def sampleInputReviewFailed : EvaluationInput :=
  { sampleInputGreen with checkRuns := [sampleQuality, sampleReviewFailed, sampleCoverageFailed] }

/-- The green input, except that the coverage gate completed with
conclusion failure while the review run succeeded. -/
def sampleInputCoverageFailed : EvaluationInput :=
  { sampleInputGreen with checkRuns := [sampleQuality, sampleReview, sampleCoverageFailed] }

/-- A successful completed Workflow Safety run. -/
def sampleWorkflowSafety : CheckRun :=
  { name := "Workflow Safety", status := "completed", conclusion := some "success"
    started_at := some 10, completed_at := some 20 }

/-- A Workflow Safety run that completed with a failure conclusion. -/
def sampleWorkflowSafetyFailed : CheckRun :=
  { name := "Workflow Safety", status := "completed", conclusion := some "failure"
    started_at := some 10, completed_at := some 20 }

/-- The flagged green input together with a successful Workflow Safety
run. -/
def sampleInputWsGreen : EvaluationInput :=
  { sampleInputGreen with
    requireWorkflowSafety := true, workflowFilesChanged := true
    checkRuns := [sampleQuality, sampleReview, sampleCoverage, sampleWorkflowSafety] }

/-- The flagged green input together with a failed Workflow Safety
run. -/
def sampleInputWsFailed : EvaluationInput :=
  { sampleInputGreen with
    requireWorkflowSafety := true, workflowFilesChanged := true
    checkRuns := [sampleQuality, sampleReview, sampleCoverage, sampleWorkflowSafetyFailed] }

/-! Shared lemmas about the evaluator. -/

lemma ws_gate_is_decision (input : EvaluationInput) (pr : PullRequest)
    (q rv : CheckRun) :
    ∃ r d b, evaluateWorkflowSafetyGate input pr q rv = decision r d b := by
  unfold evaluateWorkflowSafetyGate safeToMergeDecision
  repeat' split
  all_goals exact ⟨_, _, _, rfl⟩

lemma required_checks_is_decision (input : EvaluationInput) (pr : PullRequest) :
    ∃ r d b, evaluateRequiredChecks input pr = decision r d b := by
  unfold evaluateRequiredChecks
  repeat' split
  all_goals first
    | exact ⟨_, _, _, rfl⟩
    | exact ws_gate_is_decision input pr _ _

lemma eval_snapshot_is_decision (input : EvaluationInput) :
    ∃ r d b, evaluateMergeEligibilitySnapshot input = decision r d b := by
  unfold evaluateMergeEligibilitySnapshot
  repeat' split
  all_goals first
    | exact ⟨_, _, _, rfl⟩
    | exact required_checks_is_decision input _

lemma ws_gate_requires_flag (input : EvaluationInput) (pr : PullRequest)
    (q rv : CheckRun) :
    (evaluateWorkflowSafetyGate input pr q rv).requires_workflow_safety =
      requiresWorkflowSafetyFlag input := by
  unfold evaluateWorkflowSafetyGate safeToMergeDecision
  repeat' split
  all_goals rfl

lemma required_checks_requires_flag (input : EvaluationInput) (pr : PullRequest) :
    (evaluateRequiredChecks input pr).requires_workflow_safety =
      requiresWorkflowSafetyFlag input := by
  unfold evaluateRequiredChecks
  repeat' split
  all_goals first
    | rfl
    | exact ws_gate_requires_flag input pr _ _

lemma eval_snapshot_of_early_gates (input : EvaluationInput) (pr : PullRequest)
    (hpr : input.pr = some pr)
    (hstate : pr.state = "open")
    (hsha : ¬ (input.expectedHeadSha ≠ "" ∧ pr.head.sha ≠ input.expectedHeadSha))
    (hlabel : (labelNamesOf pr).contains "no-auto-merge" = false)
    (hmerge : pr.mergeable ≠ none)
    (hconf : ¬ (pr.mergeable = some false ∨ pr.mergeable_state = "dirty"))
    (hbehind : pr.mergeable_state ≠ "behind") :
    evaluateMergeEligibilitySnapshot input = evaluateRequiredChecks input pr := by
  unfold evaluateMergeEligibilitySnapshot
  rw [hpr]
  simp at hlabel
  simp [hstate, hsha, hlabel, hmerge, hconf, hbehind]

lemma earlyGatesPass_some (input : EvaluationInput) (pr : PullRequest)
    (hpr : input.pr = some pr) :
    earlyGatesPass input = true ↔
      (pr.state = "open" ∧
       ¬ (input.expectedHeadSha ≠ "" ∧ pr.head.sha ≠ input.expectedHeadSha) ∧
       (labelNamesOf pr).contains "no-auto-merge" = false ∧
       pr.mergeable ≠ none ∧
       ¬ (pr.mergeable = some false ∨ pr.mergeable_state = "dirty") ∧
       pr.mergeable_state ≠ "behind") := by
  simp [earlyGatesPass, hpr]
  tauto

/-- Claim C1: for every EvaluationInput, the Decision returned by the
evaluator has eligible set exactly when the reason is safe_to_merge;
the eligible flag is fully determined by the reason on every branch. -/
theorem eligible_iff_safe_to_merge (input : EvaluationInput) :
    (evaluateMergeEligibilitySnapshot input).eligible =
      ((evaluateMergeEligibilitySnapshot input).reason == "safe_to_merge") := by
  obtain ⟨r, d, b, h⟩ := eval_snapshot_is_decision input
  rw [h]
  rfl

/-- Claim C10: when the snapshot's pr object is absent, the evaluator
returns a normal pr_not_open Decision with the workflow-safety echo set
to false, and no field of pr is consulted. -/
theorem missing_pr_returns_not_open (input : EvaluationInput) (h : input.pr = none) :
    evaluateMergeEligibilitySnapshot input =
      decision "pr_not_open" ("PR #" ++ toString input.prNumber ++ " is not open.") false := by
  unfold evaluateMergeEligibilitySnapshot
  rw [h]

/-- Witness for claim C10 at a concrete input with no pull request. -/
theorem missing_pr_returns_not_open_witness :
    evaluateMergeEligibilitySnapshot { pr := none, prNumber := 7, expectedHeadSha := "" } =
      decision "pr_not_open" "PR #7 is not open." false := by
  have h := missing_pr_returns_not_open
    { pr := none, prNumber := 7, expectedHeadSha := "" } rfl
  exact h.trans (by decide)

/-- Counterexample for claim C2: on the branch that short-circuits
because the pull request is absent, the returned requiresWorkflowSafety
field is false even though requireWorkflowSafety AND
workflowFilesChanged is true, so the claim as stated fails. -/
theorem requires_flag_early_branch_cex :
    (evaluateMergeEligibilitySnapshot sampleInputNoPrFlagged).requires_workflow_safety ≠
      (sampleInputNoPrFlagged.requireWorkflowSafety &&
        sampleInputNoPrFlagged.workflowFilesChanged) := by
  decide

/-- Claim C2 as amended: the branches reached after the six early gates
pass return a Decision whose requiresWorkflowSafety field equals
requireWorkflowSafety AND workflowFilesChanged, while the six branches
that short-circuit earlier (pr_not_open, sha_mismatch,
no_auto_merge_label, pending mergeability, merge_conflict, behind_main)
return it as false. -/
theorem requires_flag_by_stage (input : EvaluationInput) :
    (earlyGatesPass input = true →
      (evaluateMergeEligibilitySnapshot input).requires_workflow_safety =
        (input.requireWorkflowSafety && input.workflowFilesChanged)) ∧
    (earlyGatesPass input = false →
      (evaluateMergeEligibilitySnapshot input).requires_workflow_safety = false) := by
  constructor
  · intro h
    rcases hp : input.pr with _ | pr
    · rw [earlyGatesPass, hp] at h
      exact absurd h (by simp)
    · obtain ⟨h1, h2, h3, h4, h5, h6⟩ := (earlyGatesPass_some input pr hp).mp h
      rw [eval_snapshot_of_early_gates input pr hp h1 h2 h3 h4 h5 h6]
      exact required_checks_requires_flag input pr
  · intro h
    unfold evaluateMergeEligibilitySnapshot
    rcases hp : input.pr with _ | pr
    · rfl
    · dsimp only
      repeat' split
      all_goals try rfl
      rename_i h1 h2 h3 h4 h5 h6
      have hall := (earlyGatesPass_some input pr hp).mpr
        ⟨not_not.mp h1, h2, Bool.eq_false_iff.mpr h3, h4, h5, h6⟩
      rw [hall] at h
      exact absurd h (by simp)

/-- Witness for the amended claim C2: both conjuncts applied at
concrete inputs, one passing the early gates with the flag set, one
short-circuiting with the flag set. -/
theorem requires_flag_by_stage_witness :
    (evaluateMergeEligibilitySnapshot sampleInputGreenFlagged).requires_workflow_safety =
      (sampleInputGreenFlagged.requireWorkflowSafety &&
        sampleInputGreenFlagged.workflowFilesChanged) ∧
    (evaluateMergeEligibilitySnapshot sampleInputNoPrFlagged).requires_workflow_safety =
      false :=
  ⟨(requires_flag_by_stage sampleInputGreenFlagged).1 (by decide),
   (requires_flag_by_stage sampleInputNoPrFlagged).2 (by decide)⟩

/-- Claim C3: the evaluator applies its disqualifying conditions in
strict short-circuiting order: pr_not_open, then sha_mismatch, then
no_auto_merge_label, then pending mergeability, then merge_conflict,
then behind_main; in particular a pull request whose state is not open
yields pr_not_open regardless of every other field. -/
theorem precedence_first_gates (input : EvaluationInput) (pr : PullRequest)
    (hpr : input.pr = some pr) :
    (pr.state ≠ "open" →
      (evaluateMergeEligibilitySnapshot input).reason = "pr_not_open") ∧
    (pr.state = "open" →
      input.expectedHeadSha ≠ "" → pr.head.sha ≠ input.expectedHeadSha →
      (evaluateMergeEligibilitySnapshot input).reason = "sha_mismatch") ∧
    (pr.state = "open" →
      ¬ (input.expectedHeadSha ≠ "" ∧ pr.head.sha ≠ input.expectedHeadSha) →
      (labelNamesOf pr).contains "no-auto-merge" = true →
      (evaluateMergeEligibilitySnapshot input).reason = "no_auto_merge_label") ∧
    (pr.state = "open" →
      ¬ (input.expectedHeadSha ≠ "" ∧ pr.head.sha ≠ input.expectedHeadSha) →
      (labelNamesOf pr).contains "no-auto-merge" = false →
      pr.mergeable = none →
      (evaluateMergeEligibilitySnapshot input).reason = "pending_checks") ∧
    (pr.state = "open" →
      ¬ (input.expectedHeadSha ≠ "" ∧ pr.head.sha ≠ input.expectedHeadSha) →
      (labelNamesOf pr).contains "no-auto-merge" = false →
      pr.mergeable ≠ none →
      (pr.mergeable = some false ∨ pr.mergeable_state = "dirty") →
      (evaluateMergeEligibilitySnapshot input).reason = "merge_conflict") ∧
    (pr.state = "open" →
      ¬ (input.expectedHeadSha ≠ "" ∧ pr.head.sha ≠ input.expectedHeadSha) →
      (labelNamesOf pr).contains "no-auto-merge" = false →
      pr.mergeable ≠ none →
      ¬ (pr.mergeable = some false ∨ pr.mergeable_state = "dirty") →
      pr.mergeable_state = "behind" →
      (evaluateMergeEligibilitySnapshot input).reason = "behind_main") := by
  refine ⟨?_, ?_, ?_, ?_, ?_, ?_⟩ <;>
    unfold evaluateMergeEligibilitySnapshot <;> rw [hpr] <;> dsimp only
  · intro h1
    rw [if_pos h1]
    rfl
  · intro h1 ha hb
    rw [if_neg (fun hne => hne h1), if_pos ⟨ha, hb⟩]
    rfl
  · intro h1 hsha hl
    rw [if_neg (fun hne => hne h1), if_neg hsha, if_pos hl]
    rfl
  · intro h1 hsha hl hm
    rw [if_neg (fun hne => hne h1), if_neg hsha,
      if_neg (by simpa using hl :
        ¬ (labelNamesOf pr).contains "no-auto-merge" = true),
      if_pos hm]
    rfl
  · intro h1 hsha hl hm hor
    rw [if_neg (fun hne => hne h1), if_neg hsha,
      if_neg (by simpa using hl :
        ¬ (labelNamesOf pr).contains "no-auto-merge" = true),
      if_neg hm, if_pos hor]
    rfl
  · intro h1 hsha hl hm hor hbehind
    rw [if_neg (fun hne => hne h1), if_neg hsha,
      if_neg (by simpa using hl :
        ¬ (labelNamesOf pr).contains "no-auto-merge" = true),
      if_neg hm, if_neg hor, if_pos hbehind]
    rfl

/-- Witness for claim C3: a closed pull request yields pr_not_open even
though every check run is green on that input. -/
theorem precedence_first_gates_witness :
    (evaluateMergeEligibilitySnapshot sampleInputClosed).reason = "pr_not_open" :=
  (precedence_first_gates sampleInputClosed samplePrClosed rfl).1 (by decide)

/-- Claim C4: deduplication keeps, for each name, only the run with the
later started timestamp; whichever side of the pair arrives first, the
run with the larger startedAt is the one the by-name map retains, so
only its status and conclusion reach the evaluator. -/
theorem dedup_keeps_latest_started (r1 r2 : CheckRun) (t1 t2 : Nat)
    (hname : r1.name = r2.name)
    (h1 : r1.started_at = some t1) (h2 : r2.started_at = some t2)
    (hlt : t1 < t2) :
    getEntry (latestRunsByName [r1, r2]) r2.name = some r2 ∧
    getEntry (latestRunsByName [r2, r1]) r2.name = some r2 := by
  constructor <;>
    simp [latestRunsByName, getEntry, setEntry, effectiveTimeMs, hname, h1, h2,
      Nat.le_of_lt hlt, Nat.not_le.mpr hlt]

/-- Witness for claim C4: two Automation Gate runs with different
startedAt values; in both input orders the later run survives. -/
theorem dedup_keeps_latest_started_witness :
    getEntry (latestRunsByName
        [{ name := "Automation Gate", status := "completed", conclusion := some "failure"
           started_at := some 100, completed_at := some 150 },
         { name := "Automation Gate", status := "completed", conclusion := some "success"
           started_at := some 200, completed_at := some 250 }])
      "Automation Gate" =
      some { name := "Automation Gate", status := "completed", conclusion := some "success"
             started_at := some 200, completed_at := some 250 } :=
  (dedup_keeps_latest_started
    { name := "Automation Gate", status := "completed", conclusion := some "failure"
      started_at := some 100, completed_at := some 150 }
    { name := "Automation Gate", status := "completed", conclusion := some "success"
      started_at := some 200, completed_at := some 250 }
    100 200 rfl rfl rfl (by decide)).1

/-- Claim C9: on an exact timestamp tie between two same-named runs,
the run occurring later in the input order replaces the earlier one,
because the source comparison is greater-or-equal. -/
theorem dedup_tiebreak_last_wins (r1 r2 : CheckRun)
    (hname : r1.name = r2.name)
    (heq : effectiveTimeMs r1 = effectiveTimeMs r2) :
    getEntry (latestRunsByName [r1, r2]) r2.name = some r2 := by
  simp [latestRunsByName, getEntry, setEntry, hname, heq]

/-- Witness for claim C9: two Automation Gate runs with identical
timestamps; the second-listed run is the one retained. -/
theorem dedup_tiebreak_last_wins_witness :
    getEntry (latestRunsByName
        [{ name := "Automation Gate", status := "completed", conclusion := some "failure"
           started_at := some 100, completed_at := some 150 },
         { name := "Automation Gate", status := "in_progress", conclusion := none
           started_at := some 100, completed_at := none }])
      "Automation Gate" =
      some { name := "Automation Gate", status := "in_progress", conclusion := none
             started_at := some 100, completed_at := none } :=
  dedup_tiebreak_last_wins
    { name := "Automation Gate", status := "completed", conclusion := some "failure"
      started_at := some 100, completed_at := some 150 }
    { name := "Automation Gate", status := "in_progress", conclusion := none
      started_at := some 100, completed_at := none }
    rfl rfl

/-- Counterexample for claim C7: with a hundred and one check runs
reported against the head commit, the single-request fetch does not
return them all, so the evaluator does not see every run. -/
theorem fetchCheckRuns_not_all_cex :
    fetchCheckRuns (List.replicate 101 sampleQuality) ≠
      List.replicate 101 sampleQuality := by
  intro h
  have hlen := congrArg List.length h
  simp [fetchCheckRuns, checkRunsPage] at hlen

/-- Claim C7 as amended: the check-run fetch issues one request capped
at a hundred results and returns exactly the first page, that is the
first hundred check runs; pagination is not followed, so runs past the
first hundred never reach the evaluator. -/
theorem fetchCheckRuns_first_page_only (allRuns : List CheckRun) :
    fetchCheckRuns allRuns = allRuns.take 100 ∧
    (fetchCheckRuns allRuns).length ≤ 100 := by
  refine ⟨by simp [fetchCheckRuns, checkRunsPage], ?_⟩
  simp [fetchCheckRuns, checkRunsPage]

/-- Claim C8: the pull-request fetch makes at most four requests, stops
at the first response with resolved mergeability (so it never retries
for any other reason), every retried attempt was preceded by an
unresolved response, after four unresolved responses the pipeline
proceeds with the last response and its unknown mergeability, and the
evaluator classifies an unresolved-mergeability snapshot that passes
the earlier gates as pending_checks rather than an error. -/
theorem pr_fetch_retry_bound (responses : Nat → PullRequest) :
    (fetchPullRequestWithRetry responses).2 ≤ 4 ∧
    ((responses 0).mergeable ≠ none → (fetchPullRequestWithRetry responses).2 = 1) ∧
    (∀ i, i + 1 < (fetchPullRequestWithRetry responses).2 →
      (responses i).mergeable = none) ∧
    ((∀ i, i < 4 → (responses i).mergeable = none) →
      (fetchPullRequestWithRetry responses).1 = responses 3 ∧
      (fetchPullRequestWithRetry responses).1.mergeable = none) ∧
    (∀ (input : EvaluationInput) (pr : PullRequest),
      input.pr = some pr → pr.mergeable = none →
      pr.state = "open" →
      ¬ (input.expectedHeadSha ≠ "" ∧ pr.head.sha ≠ input.expectedHeadSha) →
      (labelNamesOf pr).contains "no-auto-merge" = false →
      (evaluateMergeEligibilitySnapshot input).reason = "pending_checks") := by
  refine ⟨?_, ?_, ?_, ?_, ?_⟩
  · rcases h0 : (responses 0).mergeable with _ | b0 <;>
    rcases h1 : (responses 1).mergeable with _ | b1 <;>
    rcases h2 : (responses 2).mergeable with _ | b2 <;>
    rcases h3 : (responses 3).mergeable with _ | b3 <;>
    simp [fetchPullRequestWithRetry, fetchPullRequestGo, h0, h1, h2, h3]
  · intro hs
    rcases h0 : (responses 0).mergeable with _ | b0
    · exact absurd h0 hs
    · simp [fetchPullRequestWithRetry, fetchPullRequestGo, h0]
  · rcases h0 : (responses 0).mergeable with _ | b0 <;>
    rcases h1 : (responses 1).mergeable with _ | b1 <;>
    rcases h2 : (responses 2).mergeable with _ | b2 <;>
    rcases h3 : (responses 3).mergeable with _ | b3 <;>
    simp [fetchPullRequestWithRetry, fetchPullRequestGo, h0, h1, h2, h3] <;>
    intro i hi <;>
    first
      | omega
      | (rcases i with _ | _ | _ | i <;> first | assumption | omega)
  · intro hall
    have h0 := hall 0 (by omega)
    have h1 := hall 1 (by omega)
    have h2 := hall 2 (by omega)
    have h3 := hall 3 (by omega)
    constructor
    · simp [fetchPullRequestWithRetry, fetchPullRequestGo, h0, h1, h2, h3]
    · simp [fetchPullRequestWithRetry, fetchPullRequestGo, h0, h1, h2, h3]
  · intro input pr hpr hm hstate hsha hl
    unfold evaluateMergeEligibilitySnapshot
    rw [hpr]
    dsimp only
    rw [if_neg (fun hne => hne hstate), if_neg hsha,
      if_neg (by simpa using hl :
        ¬ (labelNamesOf pr).contains "no-auto-merge" = true),
      if_pos hm]
    rfl

/-- Witness for claim C8: a remote that never resolves mergeability
leads to a bounded number of requests, and the resulting snapshot is
classified as pending_checks. -/
theorem pr_fetch_retry_bound_witness :
    (fetchPullRequestWithRetry (fun _ => samplePrNullMergeable)).2 ≤ 4 ∧
    (evaluateMergeEligibilitySnapshot sampleInputNullMergeable).reason =
      "pending_checks" :=
  ⟨(pr_fetch_retry_bound (fun _ => samplePrNullMergeable)).1,
   (pr_fetch_retry_bound (fun _ => samplePrNullMergeable)).2.2.2.2
     sampleInputNullMergeable samplePrNullMergeable rfl rfl rfl
     (by decide) (by decide)⟩

lemma required_checks_resolved (input : EvaluationInput) (pr : PullRequest)
    (q rv : CheckRun)
    (hq : getEntry (latestRunsByName input.checkRuns) "Quality" = some q)
    (hrv : getEntry (latestRunsByName input.checkRuns) "review" = some rv)
    (hcov : coverageRunsOf input ≠ [])
    (hall : ∀ r ∈ requiredRunsOf input q rv, r.status = "completed") :
    evaluateRequiredChecks input pr =
      (if rv.status = "completed" ∧ ¬ isSuccessfulConclusion rv.conclusion then
        decision "review_failed"
          ("review check failed with conclusion " ++ conclusionText rv.conclusion ++ ".")
          (requiresWorkflowSafetyFlag input)
      else if (failedRequiredChecksOf input q rv).length > 0 then
        decision "pending_checks"
          ("Required checks failed: " ++
            String.intercalate ", " (failedRequiredChecksOf input q rv) ++ ".")
          (requiresWorkflowSafetyFlag input)
      else evaluateWorkflowSafetyGate input pr q rv) := by
  have hpend : pendingRequiredChecksOf input q rv = [] := by
    simp only [pendingRequiredChecksOf, List.map_eq_nil_iff, List.filter_eq_nil_iff]
    intro r hr
    simp [hall r hr]
  unfold evaluateRequiredChecks
  rw [hq]
  dsimp only
  rw [hrv]
  dsimp only
  rw [if_neg (fun h => hcov (List.length_eq_zero.mp h)), hpend]
  rw [if_neg (by simp : ¬ ([] : List String).length > 0)]

/-- Claim C5: when every required run is completed, a review run with
an unsuccessful conclusion yields review_failed, taking precedence over
any other failed required check; a failed non-review required check
yields pending_checks with the failing names and conclusions rendered
in the details, never a distinct failure reason. -/
theorem review_failed_precedence (input : EvaluationInput) (pr : PullRequest)
    (q rv : CheckRun)
    (hpr : input.pr = some pr)
    (hearly : earlyGatesPass input = true)
    (hq : getEntry (latestRunsByName input.checkRuns) "Quality" = some q)
    (hrv : getEntry (latestRunsByName input.checkRuns) "review" = some rv)
    (hcov : coverageRunsOf input ≠ [])
    (hall : ∀ r ∈ requiredRunsOf input q rv, r.status = "completed") :
    (isSuccessfulConclusion rv.conclusion = false →
      (evaluateMergeEligibilitySnapshot input).reason = "review_failed") ∧
    (isSuccessfulConclusion rv.conclusion = true →
      ∀ r ∈ requiredRunsOf input q rv, isSuccessfulConclusion r.conclusion = false →
      (evaluateMergeEligibilitySnapshot input).reason = "pending_checks" ∧
      (evaluateMergeEligibilitySnapshot input).details =
        "Required checks failed: " ++
          String.intercalate ", " (failedRequiredChecksOf input q rv) ++ ".") := by
  obtain ⟨h1, h2, h3, h4, h5, h6⟩ := (earlyGatesPass_some input pr hpr).mp hearly
  have he := eval_snapshot_of_early_gates input pr hpr h1 h2 h3 h4 h5 h6
  have hrc := required_checks_resolved input pr q rv hq hrv hcov hall
  have hrv_mem : rv ∈ requiredRunsOf input q rv := by simp [requiredRunsOf]
  rw [he, hrc]
  constructor
  · intro hbad
    rw [if_pos ⟨hall rv hrv_mem, by simp [hbad]⟩]
    rfl
  · intro hgood r hr hbadr
    rw [if_neg (fun hc => hc.2 hgood)]
    have hmem : r ∈ (requiredRunsOf input q rv).filter
        (fun run => run.status = "completed" ∧ ¬ isSuccessfulConclusion run.conclusion) :=
      List.mem_filter.mpr ⟨hr, by simp [hall r hr, hbadr]⟩
    have hlen : (failedRequiredChecksOf input q rv).length > 0 := by
      unfold failedRequiredChecksOf
      rw [List.length_map]
      exact List.length_pos.mpr (List.ne_nil_of_mem hmem)
    rw [if_pos hlen]
    exact ⟨rfl, rfl⟩

/-- Witness for claim C5: a failed review run yields review_failed even
though the coverage gate also failed, and a failed coverage gate with a
green review yields pending_checks. -/
theorem review_failed_precedence_witness :
    (evaluateMergeEligibilitySnapshot sampleInputReviewFailed).reason = "review_failed" ∧
    (evaluateMergeEligibilitySnapshot sampleInputCoverageFailed).reason = "pending_checks" :=
  ⟨(review_failed_precedence sampleInputReviewFailed samplePrOpen
      sampleQuality sampleReviewFailed
      rfl (by decide) (by decide) (by decide) (by decide) (by decide)).1 (by decide),
   ((review_failed_precedence sampleInputCoverageFailed samplePrOpen
      sampleQuality sampleReview
      rfl (by decide) (by decide) (by decide) (by decide) (by decide)).2 (by decide)
      sampleCoverageFailed (by decide) (by decide)).1⟩

/-- Claim C6: when the workflow-safety gate is in scope and every
required check passed, a missing Workflow Safety run yields
workflow_safety_missing, a present but uncompleted run yields
pending_checks, a completed run with an unsuccessful conclusion yields
workflow_safety_failed, and otherwise the evaluation reaches
safe_to_merge. -/
theorem workflow_safety_gate_outcomes (input : EvaluationInput) (pr : PullRequest)
    (q rv : CheckRun)
    (hpr : input.pr = some pr)
    (hearly : earlyGatesPass input = true)
    (hq : getEntry (latestRunsByName input.checkRuns) "Quality" = some q)
    (hrv : getEntry (latestRunsByName input.checkRuns) "review" = some rv)
    (hcov : coverageRunsOf input ≠ [])
    (hallok : ∀ r ∈ requiredRunsOf input q rv,
      r.status = "completed" ∧ isSuccessfulConclusion r.conclusion = true)
    (hflag : requiresWorkflowSafetyFlag input = true) :
    (getEntry (latestRunsByName input.checkRuns) "Workflow Safety" = none →
      (evaluateMergeEligibilitySnapshot input).reason = "workflow_safety_missing") ∧
    (∀ ws, getEntry (latestRunsByName input.checkRuns) "Workflow Safety" = some ws →
      ws.status ≠ "completed" →
      (evaluateMergeEligibilitySnapshot input).reason = "pending_checks") ∧
    (∀ ws, getEntry (latestRunsByName input.checkRuns) "Workflow Safety" = some ws →
      ws.status = "completed" → isSuccessfulConclusion ws.conclusion = false →
      (evaluateMergeEligibilitySnapshot input).reason = "workflow_safety_failed") ∧
    (∀ ws, getEntry (latestRunsByName input.checkRuns) "Workflow Safety" = some ws →
      ws.status = "completed" → isSuccessfulConclusion ws.conclusion = true →
      (evaluateMergeEligibilitySnapshot input).reason = "safe_to_merge") := by
  obtain ⟨h1, h2, h3, h4, h5, h6⟩ := (earlyGatesPass_some input pr hpr).mp hearly
  have he := eval_snapshot_of_early_gates input pr hpr h1 h2 h3 h4 h5 h6
  have hall : ∀ r ∈ requiredRunsOf input q rv, r.status = "completed" :=
    fun r hr => (hallok r hr).1
  have hrc := required_checks_resolved input pr q rv hq hrv hcov hall
  have hrv_mem : rv ∈ requiredRunsOf input q rv := by simp [requiredRunsOf]
  have hfail : failedRequiredChecksOf input q rv = [] := by
    simp only [failedRequiredChecksOf, List.map_eq_nil_iff, List.filter_eq_nil_iff]
    intro r hr
    simp [(hallok r hr).2]
  rw [he, hrc, if_neg (fun hc => hc.2 (by simp [(hallok rv hrv_mem).2])), hfail,
    if_neg (by simp : ¬ ([] : List String).length > 0)]
  unfold evaluateWorkflowSafetyGate
  rw [hflag]
  rw [if_pos rfl]
  refine ⟨?_, ?_, ?_, ?_⟩
  · intro hws
    rw [hws]
    rfl
  · intro ws hws hst
    rw [hws]
    dsimp only
    rw [if_pos hst]
    rfl
  · intro ws hws hst hbad
    rw [hws]
    dsimp only
    rw [if_neg (fun hne => hne hst), if_pos (by simp [hbad])]
    rfl
  · intro ws hws hst hgood
    rw [hws]
    dsimp only
    rw [if_neg (fun hne => hne hst), if_neg (by simp [hgood])]
    rfl

/-- Witness for claim C6: with the gate in scope and all required
checks green, a missing Workflow Safety run yields
workflow_safety_missing, a failed one yields workflow_safety_failed,
and a successful one yields safe_to_merge. -/
theorem workflow_safety_gate_outcomes_witness :
    (evaluateMergeEligibilitySnapshot sampleInputGreenFlagged).reason =
      "workflow_safety_missing" ∧
    (evaluateMergeEligibilitySnapshot sampleInputWsFailed).reason =
      "workflow_safety_failed" ∧
    (evaluateMergeEligibilitySnapshot sampleInputWsGreen).reason =
      "safe_to_merge" :=
  ⟨(workflow_safety_gate_outcomes sampleInputGreenFlagged samplePrOpen
      sampleQuality sampleReview rfl (by decide) (by decide) (by decide)
      (by decide) (by decide) (by decide)).1 (by decide),
   (workflow_safety_gate_outcomes sampleInputWsFailed samplePrOpen
      sampleQuality sampleReview rfl (by decide) (by decide) (by decide)
      (by decide) (by decide) (by decide)).2.2.1
      sampleWorkflowSafetyFailed (by decide) (by decide) (by decide),
   (workflow_safety_gate_outcomes sampleInputWsGreen samplePrOpen
      sampleQuality sampleReview rfl (by decide) (by decide) (by decide)
      (by decide) (by decide) (by decide)).2.2.2
      sampleWorkflowSafety (by decide) (by decide) (by decide)⟩
